import Mathlib

/-
Verification development for the multi-provider calendar synchronization engine
(Google Calendar, Outlook / Microsoft Graph, Apple iCloud CalDAV providers,
plus the OAuth token manager).  The definitions below are a shallow embedding
of the TypeScript sources: pure conversion functions become Lean functions,
HTTP interactions are modelled by passing the server responses (or response
oracles) as explicit arguments, and JS `Date` values are modelled as integer
millisecond timestamps in a single fixed time zone (no DST), with all-day
wire dates modelled as civil day indices.
-/

-- ============================================================================
-- Error taxonomy (src/providers/calendar-provider-base.ts, ProviderErrorType)
-- ============================================================================

/-- Fixed error taxonomy of the provider layer. -/
inductive ProviderErrorType where
  | auth
  | network
  | rate_limit
  | not_found
  | permission
  | parse
  | timeout
  | unknown
deriving DecidableEq, Repr

/-- Categorized provider error (class ProviderError).  The optional
originalError and retryable fields are omitted: no claim concerns them. -/
structure ProviderError where
  message : String
  type : ProviderErrorType
deriving DecidableEq, Repr

-- ============================================================================
-- Date model
-- ============================================================================

/-- Milliseconds in one day, as used by the sources
(`24 * 60 * 60 * 1000`). -/
def msPerDay : Int := 24 * 60 * 60 * 1000

/-- Civil day index containing a millisecond timestamp.  Models reading the
local year-month-day fields of a JS Date (one fixed zone, no DST). -/
def localCivilDay (ms : Int) : Int := Int.fdiv ms msPerDay

/-- Timestamp of local midnight of a civil day.  Models
`new Date(year, month - 1, day)` for an all-day date. -/
def dateFromCivilDay (d : Int) : Int := d * msPerDay

-- ============================================================================
-- Canonical event model (src/types/ics.ts, IcsEvent), trimmed to the fields
-- the providers below read or write; untouched fields are omitted.
-- ============================================================================

/-- Canonical event representation shared by all providers. -/
structure IcsEvent where
  uid : String
  summary : String
  dtstart : Int
  dtend : Option Int
  allDay : Bool
  status : Option String
  transp : Option String
  priority : Option Int
  etag : Option String
  providerEventId : Option String
  providerCalendarId : Option String
  canEdit : Bool
deriving DecidableEq, Repr

/-- WriteResult of the provider contract.  The optional `conflict` field is
modelled as a Bool with absent = false. -/
structure WriteResult where
  success : Bool
  event : Option IcsEvent
  error : Option String
  conflict : Bool
deriving DecidableEq, Repr

/-- Model of an HTTP response as seen through `requestUrl` with
`throw: false`: a status code plus the parsed JSON payload. -/
structure HttpResponse (α : Type) where
  status : Nat
  json : α
deriving DecidableEq, Repr

/-- Outcome of one call through the authenticated request helpers, with
instrumentation counting the HTTP requests issued and the token refresh
attempts performed (to state the single-retry property). -/
structure RequestOutcome (α : Type) where
  result : Except ProviderError α
  requestsMade : Nat
  refreshAttempts : Nat
deriving Repr

-- ============================================================================
-- Google Calendar provider (src/unnamed/part_000)
-- ============================================================================

/-- GoogleEventDateTime wire value: either an all-day date (civil day index
standing for the YYYY-MM-DD string) or a timed instant (ms timestamp standing
for the RFC3339 string). -/
structure GoogleEventDateTime where
  date : Option Int
  dateTime : Option Int
deriving DecidableEq, Repr

/-- Google API event, trimmed to the fields convertGoogleEvent reads. -/
structure GoogleEvent where
  id : String
  status : String
  etag : String
  summary : Option String
  start : GoogleEventDateTime
  endTime : GoogleEventDateTime
  transparency : Option String
  iCalUID : Option String
deriving DecidableEq, Repr

/-- parseAllDayDate: parse a YYYY-MM-DD wire date into a Date at local
midnight. -/
def GoogleCalendarProvider.parseAllDayDate (wireDay : Int) : Int :=
  dateFromCivilDay wireDay

/-- parseAllDayDateExclusive: parse an all-day END date, which Google sends
exclusive, then subtract one day (`date.setDate(date.getDate() - 1)`) to get
the inclusive last day. -/
def GoogleCalendarProvider.parseAllDayDateExclusive (wireDay : Int) : Int :=
  dateFromCivilDay wireDay - msPerDay

/-- mapGoogleStatus: Google status to ICS status; unrecognized values fall to
the default switch arm, which returns undefined. -/
def GoogleCalendarProvider.mapGoogleStatus (status : String) : Option String :=
  if status = "confirmed" then some "CONFIRMED"
  else if status = "tentative" then some "TENTATIVE"
  else if status = "cancelled" then some "CANCELLED"
  else none

/-- convertGoogleEvent: Google wire event to canonical IcsEvent.  Attendee,
organizer, recurrence and customProperties fields are omitted (no claim reads
them).  The non-null assertions of the source on start/end become getD. -/
def GoogleCalendarProvider.convertGoogleEvent (gEvent : GoogleEvent)
    (calendarId : String) (canWrite : Bool) : IcsEvent :=
  let isAllDay := gEvent.start.date.isSome
  let dtstart :=
    match gEvent.start.date with
    | some d => GoogleCalendarProvider.parseAllDayDate d
    | none => gEvent.start.dateTime.getD 0
  let dtend :=
    if isAllDay then
      gEvent.endTime.date.map GoogleCalendarProvider.parseAllDayDateExclusive
    else gEvent.endTime.dateTime
  { uid := gEvent.iCalUID.getD gEvent.id
    summary := gEvent.summary.getD "(No title)"
    dtstart := dtstart
    dtend := dtend
    allDay := isAllDay
    status := GoogleCalendarProvider.mapGoogleStatus gEvent.status
    transp := gEvent.transparency
    priority := none
    etag := some gEvent.etag
    providerEventId := some gEvent.id
    providerCalendarId := some calendarId
    canEdit := canWrite && (gEvent.status != "cancelled") }

/-- toGoogleDateTime: canonical Date to Google wire date.  For all-day end
dates one day is added (`date.getTime() + 24 * 60 * 60 * 1000`) before the
local Y-M-D fields are formatted, because the wire end date is exclusive. -/
def GoogleCalendarProvider.toGoogleDateTime (dateMs : Int) (allDay : Bool)
    (isEndDate : Bool) : GoogleEventDateTime :=
  if allDay then
    let targetMs := if isEndDate then dateMs + 24 * 60 * 60 * 1000 else dateMs
    { date := some (localCivilDay targetMs), dateTime := none }
  else
    { date := none, dateTime := some dateMs }

/-- Model of String.prototype.toUpperCase, defined over the character list
so that it evaluates on concrete strings. -/
def jsToUpperCase (s : String) : String :=
  String.mk (s.data.map Char.toUpper)

/-- mapIcsStatusToGoogle: ICS status to Google status, switching on the
uppercased input; the default switch arm returns "confirmed". -/
def GoogleCalendarProvider.mapIcsStatusToGoogle (status : String) : String :=
  if jsToUpperCase status = "CONFIRMED" then "confirmed"
  else if jsToUpperCase status = "TENTATIVE" then "tentative"
  else if jsToUpperCase status = "CANCELLED" then "cancelled"
  else "confirmed"

/-- Transparency written to Google, inline in convertIcsEventToGoogleEvent and
buildPatchBody: TRANSPARENT maps to transparent, anything else to opaque. -/
def GoogleCalendarProvider.mapIcsTranspToGoogle (transp : String) : String :=
  if transp = "TRANSPARENT" then "transparent" else "opaque"

/-- fetchEventsFromCalendar (pagination loop body).  The paginated HTTP
exchange is modelled by the list of per-page outcomes (a page either fails
with a ProviderError or yields its items); `ab n` is the value of
`options.signal?.aborted` observed at the cancellation check of iteration n.
Cancelled remote events are filtered out of each page before conversion. -/
def GoogleCalendarProvider.fetchPagesGo (calendarId : String) (ab : Nat → Bool) :
    List (Except ProviderError (List GoogleEvent)) →
      Except ProviderError (List IcsEvent)
  | [] => .ok []
  | page :: rest =>
    if ab 0 then .error { message := "Request cancelled", type := .unknown }
    else
      match page with
      | .error e => .error e
      | .ok items =>
        match GoogleCalendarProvider.fetchPagesGo calendarId
            (fun n => ab (n + 1)) rest with
        | .error e => .error e
        | .ok restEvents =>
          .ok (((items.filter (fun g => g.status != "cancelled")).map
              (fun g =>
                GoogleCalendarProvider.convertGoogleEvent g calendarId false))
            ++ restEvents)

/-- fetchEventsFromCalendar: runs the pagination loop from its first
iteration. -/
def GoogleCalendarProvider.fetchEventsFromCalendar (calendarId : String)
    (ab : Nat → Bool)
    (pages : List (Except ProviderError (List GoogleEvent))) :
    Except ProviderError (List IcsEvent) :=
  GoogleCalendarProvider.fetchPagesGo calendarId ab pages

/-- getEvents: fans out over the requested (or configured) calendar ids; each
per-calendar fetch is wrapped in a catch that turns any error into an empty
contribution; the page outcomes of calendar cid are `pagesFor cid` and its
observations of the cancellation signal are `abFor cid`. -/
def GoogleCalendarProvider.getEvents (connected : Bool)
    (configCalendarIds : List String) (optionCalendarIds : List String)
    (pagesFor : String → List (Except ProviderError (List GoogleEvent)))
    (abFor : String → Nat → Bool) : List IcsEvent :=
  if !connected then []
  else
    let calendarIds :=
      if optionCalendarIds.isEmpty then configCalendarIds
      else optionCalendarIds
    if calendarIds.isEmpty then []
    else
      (calendarIds.map (fun cid =>
        match GoogleCalendarProvider.fetchEventsFromCalendar cid (abFor cid)
            (pagesFor cid) with
        | .ok evs => evs
        | .error _ => [])).flatten

/-- makeAuthenticatedRequest: the 401 refresh-and-retry policy.  The url,
method and body only route the HTTP call and are omitted; the first response,
whether the token refresh performed by connect() succeeds, and the retry
response are passed in.  The outcome carries counts of requests issued and
refresh attempts. -/
def GoogleCalendarProvider.makeAuthenticatedRequest {α : Type} (hasAuth : Bool)
    (firstResponse : HttpResponse α) (refreshSucceeds : Bool)
    (retryResponse : HttpResponse α) : RequestOutcome α :=
  if !hasAuth then
    { result := .error { message := "No authentication token", type := .auth }
      requestsMade := 0, refreshAttempts := 0 }
  else if firstResponse.status = 401 then
    if refreshSucceeds then
      if retryResponse.status = 200 then
        { result := .ok retryResponse.json
          requestsMade := 2, refreshAttempts := 1 }
      else
        { result := .error
            { message := "API request failed after token refresh"
              type := .auth }
          requestsMade := 2, refreshAttempts := 1 }
    else
      { result := .error
          { message := "Authentication failed - token refresh unsuccessful"
            type := .auth }
        requestsMade := 1, refreshAttempts := 1 }
  else if firstResponse.status ≥ 400 then
    { result := .error
        { message := "Google Calendar API error"
          type := if firstResponse.status = 403 then .permission
                  else .unknown }
      requestsMade := 1, refreshAttempts := 0 }
  else
    { result := .ok firstResponse.json
      requestsMade := 1, refreshAttempts := 0 }

/-- updateEvent (Google).  `respond h` is the PATCH response when the
If-Match header is h (none when no header is sent).  A 412 first response
triggers one retry without the If-Match header; afterwards, any status of
400 or above is a failure (the user-facing message branches of the source
are collapsed into one message since no claim reads them), and otherwise the
authoritative event converted from the response body is returned. -/
def GoogleCalendarProvider.updateEvent (connected : Bool)
    (eventId : Option String) (targetCalendarId : String)
    (etag : Option String)
    (respond : Option String → HttpResponse GoogleEvent) : WriteResult :=
  if !connected then
    { success := false, event := none
      error := some "Not authenticated", conflict := false }
  else
    match eventId with
    | none =>
      { success := false, event := none
        error := some "Event ID not found", conflict := false }
    | some _ =>
      let response := respond etag
      let response := if response.status = 412 then respond none else response
      if response.status ≥ 400 then
        { success := false, event := none
          error := some "Failed to update event", conflict := false }
      else
        { success := true
          event := some (GoogleCalendarProvider.convertGoogleEvent
            response.json targetCalendarId true)
          error := none, conflict := false }

/-- deleteEvent (Google).  412 reports a conflict; 204 and 200 are success;
410 Gone means already deleted and is success; every other status, a 404
included, is a failure. -/
def GoogleCalendarProvider.deleteEvent (connected : Bool) (eventId : String)
    (etag : Option String)
    (respond : Option String → HttpResponse Unit) : WriteResult :=
  if !connected then
    { success := false, event := none
      error := some "Not authenticated", conflict := false }
  else
    let response := respond etag
    if response.status = 412 then
      { success := false, event := none
        error := some "Conflict: The event was modified on the server."
        conflict := true }
    else if response.status = 204 || response.status = 200 then
      { success := true, event := none, error := none, conflict := false }
    else if response.status = 410 then
      { success := true, event := none, error := none, conflict := false }
    else
      { success := false, event := none
        error := some "Failed to delete event", conflict := false }

-- ============================================================================
-- Outlook / Microsoft 365 provider (src/unnamed/part_001)
-- ============================================================================

/-- GraphDateTime wire value: the dateTime string is modelled as the instant
it denotes (ms timestamp); all-day values sit at local midnight of their
civil day, mirroring the "YYYY-MM-DDT00:00:00.0000000" form. -/
structure GraphDateTime where
  dateTime : Int
  timeZone : String
deriving DecidableEq, Repr

/-- Microsoft Graph event, trimmed to the fields convertOutlookEvent reads.
Optional wire booleans stay Option Bool, read through getD false like the
falsy checks of the source. -/
structure GraphEvent where
  id : String
  changeKey : Option String
  subject : Option String
  isAllDay : Option Bool
  isCancelled : Option Bool
  showAs : Option String
  importance : Option String
  responseStatusResponse : Option String
  startTime : Option GraphDateTime
  endTime : Option GraphDateTime
  iCalUId : Option String
deriving DecidableEq, Repr

/-- parseGraphDateTime: for all-day values only the date part is kept and a
Date at local midnight of that day is built; timed values parse to their
instant (the UTC zone normalization of the source is the identity in the
one-zone model). -/
def OutlookCalendarProvider.parseGraphDateTime (g : GraphDateTime)
    (isAllDay : Bool) : Int :=
  if isAllDay then dateFromCivilDay (localCivilDay g.dateTime)
  else g.dateTime

/-- mapOutlookStatus: cancelled events map to CANCELLED, tentatively accepted
ones to TENTATIVE, everything else to CONFIRMED. -/
def OutlookCalendarProvider.mapOutlookStatus (oEvent : GraphEvent) :
    Option String :=
  if oEvent.isCancelled.getD false then some "CANCELLED"
  else if oEvent.responseStatusResponse = some "tentativelyAccepted" then
    some "TENTATIVE"
  else some "CONFIRMED"

/-- mapShowAsToTransparency: free maps to TRANSPARENT; tentative, busy, oof
and workingElsewhere map to OPAQUE; unrecognized values (unknown included)
fall to the default arm, which returns undefined. -/
def OutlookCalendarProvider.mapShowAsToTransparency (showAs : Option String) :
    Option String :=
  if showAs = some "free" then some "TRANSPARENT"
  else if showAs = some "tentative" || showAs = some "busy"
      || showAs = some "oof" || showAs = some "workingElsewhere" then
    some "OPAQUE"
  else none

/-- mapImportanceToPriority: high, normal and low map to 1, 5 and 9; the
default arm returns undefined. -/
def OutlookCalendarProvider.mapImportanceToPriority
    (importance : Option String) : Option Int :=
  if importance = some "high" then some 1
  else if importance = some "normal" then some 5
  else if importance = some "low" then some 9
  else none

/-- mapPriorityToImportance: priorities 1-4 map to high, 5 to normal, 6-9 to
low, and anything else to normal. -/
def OutlookCalendarProvider.mapPriorityToImportance (priority : Int) :
    String :=
  if 1 ≤ priority && priority ≤ 4 then "high"
  else if priority = 5 then "normal"
  else if 6 ≤ priority && priority ≤ 9 then "low"
  else "normal"

/-- showAs written to Outlook, inline in convertIcsEventToGraphEvent and
buildPatchBody: TRANSPARENT maps to free, anything else to busy. -/
def OutlookCalendarProvider.mapIcsTranspToShowAs (transp : String) : String :=
  if transp = "TRANSPARENT" then "free" else "busy"

/-- convertOutlookEvent: Graph wire event to canonical IcsEvent.  When the
wire start is missing the source falls back to `new Date()`; the current
instant is the nowMs parameter.  An all-day end date arrives exclusive and
one day is subtracted (`dtend.setDate(dtend.getDate() - 1)`). -/
def OutlookCalendarProvider.convertOutlookEvent (nowMs : Int)
    (oEvent : GraphEvent) (calendarId : String) (canWrite : Bool) : IcsEvent :=
  let isAllDay := oEvent.isAllDay.getD false
  let dtstart :=
    match oEvent.startTime with
    | some s => OutlookCalendarProvider.parseGraphDateTime s isAllDay
    | none => nowMs
  let dtendRaw := oEvent.endTime.map
    (fun e => OutlookCalendarProvider.parseGraphDateTime e isAllDay)
  let dtend := if isAllDay then dtendRaw.map (fun d => d - msPerDay)
    else dtendRaw
  { uid := oEvent.iCalUId.getD oEvent.id
    summary := oEvent.subject.getD "(No subject)"
    dtstart := dtstart
    dtend := dtend
    allDay := isAllDay
    status := OutlookCalendarProvider.mapOutlookStatus oEvent
    transp := OutlookCalendarProvider.mapShowAsToTransparency oEvent.showAs
    priority := OutlookCalendarProvider.mapImportanceToPriority
      oEvent.importance
    etag := oEvent.changeKey
    providerEventId := some oEvent.id
    providerCalendarId := some calendarId
    canEdit := canWrite && !(oEvent.isCancelled.getD false) }

/-- toGraphDateTime: canonical Date to Graph wire value.  For all-day end
dates one day is added (`date.getTime() + 24 * 60 * 60 * 1000`) before the
local Y-M-D fields are formatted at T00:00:00, because the wire end date is
exclusive; timed values are emitted at their instant in UTC. -/
def OutlookCalendarProvider.toGraphDateTime (dateMs : Int) (allDay : Bool)
    (isEndDate : Bool) : GraphDateTime :=
  if allDay then
    let targetMs := if isEndDate then dateMs + 24 * 60 * 60 * 1000 else dateMs
    { dateTime := dateFromCivilDay (localCivilDay targetMs), timeZone := "UTC" }
  else
    { dateTime := dateMs, timeZone := "UTC" }

/-- fetchEventsFromCalendar (Outlook pagination loop body): same structure as
the Google loop, with the cancellation check at the top of each page
iteration and cancelled events (isCancelled) filtered out of each page. -/
def OutlookCalendarProvider.fetchPagesGo (nowMs : Int) (calendarId : String)
    (ab : Nat → Bool) :
    List (Except ProviderError (List GraphEvent)) →
      Except ProviderError (List IcsEvent)
  | [] => .ok []
  | page :: rest =>
    if ab 0 then .error { message := "Request cancelled", type := .unknown }
    else
      match page with
      | .error e => .error e
      | .ok items =>
        match OutlookCalendarProvider.fetchPagesGo nowMs calendarId
            (fun n => ab (n + 1)) rest with
        | .error e => .error e
        | .ok restEvents =>
          .ok (((items.filter (fun o => !(o.isCancelled.getD false))).map
              (fun o => OutlookCalendarProvider.convertOutlookEvent nowMs o
                calendarId false))
            ++ restEvents)

/-- fetchEventsFromCalendar: runs the pagination loop from its first
iteration. -/
def OutlookCalendarProvider.fetchEventsFromCalendar (nowMs : Int)
    (calendarId : String) (ab : Nat → Bool)
    (pages : List (Except ProviderError (List GraphEvent))) :
    Except ProviderError (List IcsEvent) :=
  OutlookCalendarProvider.fetchPagesGo nowMs calendarId ab pages

/-- getEvents (Outlook): identical fan-out-and-isolate structure as the
Google provider. -/
def OutlookCalendarProvider.getEvents (nowMs : Int) (connected : Bool)
    (configCalendarIds : List String) (optionCalendarIds : List String)
    (pagesFor : String → List (Except ProviderError (List GraphEvent)))
    (abFor : String → Nat → Bool) : List IcsEvent :=
  if !connected then []
  else
    let calendarIds :=
      if optionCalendarIds.isEmpty then configCalendarIds
      else optionCalendarIds
    if calendarIds.isEmpty then []
    else
      (calendarIds.map (fun cid =>
        match OutlookCalendarProvider.fetchEventsFromCalendar nowMs cid
            (abFor cid) (pagesFor cid) with
        | .ok evs => evs
        | .error _ => [])).flatten

/-- makeGraphRequest: the Outlook 401 refresh-and-retry policy, identical in
structure to the Google helper. -/
def OutlookCalendarProvider.makeGraphRequest {α : Type} (hasAuth : Bool)
    (firstResponse : HttpResponse α) (refreshSucceeds : Bool)
    (retryResponse : HttpResponse α) : RequestOutcome α :=
  if !hasAuth then
    { result := .error { message := "No authentication token", type := .auth }
      requestsMade := 0, refreshAttempts := 0 }
  else if firstResponse.status = 401 then
    if refreshSucceeds then
      if retryResponse.status = 200 then
        { result := .ok retryResponse.json
          requestsMade := 2, refreshAttempts := 1 }
      else
        { result := .error
            { message := "API request failed after token refresh"
              type := .auth }
          requestsMade := 2, refreshAttempts := 1 }
    else
      { result := .error
          { message := "Authentication failed - token refresh unsuccessful"
            type := .auth }
        requestsMade := 1, refreshAttempts := 1 }
  else if firstResponse.status ≥ 400 then
    { result := .error
        { message := "Microsoft Graph API error"
          type := if firstResponse.status = 403 then .permission
                  else .unknown }
      requestsMade := 1, refreshAttempts := 0 }
  else
    { result := .ok firstResponse.json
      requestsMade := 1, refreshAttempts := 0 }

/-- updateEvent (Outlook).  The If-Match header carries the changeKey wrapped
as a weak ETag; a 412 response reports a conflict; other statuses of 400 and
above fail (message branches collapsed); success converts the response body
with the refreshed changeKey. -/
def OutlookCalendarProvider.updateEvent (nowMs : Int) (connected : Bool)
    (eventId : Option String) (targetCalendarId : String)
    (changeKey : Option String)
    (respond : Option String → HttpResponse GraphEvent) : WriteResult :=
  if !connected then
    { success := false, event := none
      error := some "Not authenticated", conflict := false }
  else
    match eventId with
    | none =>
      { success := false, event := none
        error := some "Event ID not found", conflict := false }
    | some _ =>
      let ifMatch := changeKey.map (fun k => "W/\"" ++ k ++ "\"")
      let response := respond ifMatch
      if response.status = 412 then
        { success := false, event := none
          error := some
            "Conflict: The event was modified on the server. Please refresh and try again."
          conflict := true }
      else if response.status ≥ 400 then
        { success := false, event := none
          error := some "Failed to update event", conflict := false }
      else
        { success := true
          event := some (OutlookCalendarProvider.convertOutlookEvent nowMs
            response.json targetCalendarId true)
          error := none, conflict := false }

/-- deleteEvent (Outlook).  412 reports a conflict; 204 and 200 are success;
404 means already deleted and is success; 403 and 401 fail with dedicated
messages; every other status fails. -/
def OutlookCalendarProvider.deleteEvent (connected : Bool) (eventId : String)
    (etag : Option String)
    (respond : Option String → HttpResponse Unit) : WriteResult :=
  if !connected then
    { success := false, event := none
      error := some "Not authenticated", conflict := false }
  else
    let ifMatch := etag.map (fun k => "W/\"" ++ k ++ "\"")
    let response := respond ifMatch
    if response.status = 412 then
      { success := false, event := none
        error := some "Conflict: The event was modified on the server."
        conflict := true }
    else if response.status = 204 || response.status = 200 then
      { success := true, event := none, error := none, conflict := false }
    else if response.status = 404 then
      { success := true, event := none, error := none, conflict := false }
    else if response.status = 403 then
      { success := false, event := none
        error := some "Permission denied", conflict := false }
    else if response.status = 401 then
      { success := false, event := none
        error := some "Authentication expired", conflict := false }
    else
      { success := false, event := none
        error := some "Failed to delete event", conflict := false }

-- ============================================================================
-- Apple iCloud CalDAV provider (src/src/providers/apple-caldav-provider.ts)
-- ============================================================================

/-- Response of a CalDAV PUT or DELETE: a status code plus the value of the
ETag response header when the server sent one. -/
structure CaldavResponse where
  status : Nat
  etagHeader : Option String
deriving DecidableEq, Repr

/-- Origin (scheme plus host) of a URL, used to resolve path-absolute
hrefs. -/
def urlOrigin (base : String) : String :=
  match base.splitOn "://" with
  | [scheme, rest] =>
    scheme ++ "://" ++ rest.takeWhile (fun c => c ≠ '/')
  | _ => base

/-- Model of `new URL(href, base).toString()` for the href shapes CalDAV
serves: an absolute URL stands alone, a path-absolute href is resolved
against the origin of the base, and any other href is appended to the
base. -/
def resolveUrl (href : String) (base : String) : String :=
  if href.startsWith "http://" || href.startsWith "https://" then href
  else if href.startsWith "/" then urlOrigin base ++ href
  else base ++ href

/-- discoverCalendarHomeSet: two-step discovery.  `propfindHref url prop`
models one PROPFIND request against url followed by extractHref for prop -
it returns the href when one can be extracted from the multi-status
response and none otherwise.  Step one asks the server root for the
current-user-principal; step two asks the resolved principal URL for the
calendar-home-set; each extracted href is resolved against the configured
server URL, and a missing href is a terminal not_found error. -/
def AppleCaldavProvider.discoverCalendarHomeSet (serverUrl : String)
    (propfindHref : String → String → Option String) :
    Except ProviderError String :=
  match propfindHref serverUrl "current-user-principal" with
  | none =>
    .error { message := "Could not discover user principal"
             type := .not_found }
  | some principalHref =>
    let principalUrl := resolveUrl principalHref serverUrl
    match propfindHref principalUrl "calendar-home-set" with
    | none =>
      .error { message := "Could not discover calendar home set"
               type := .not_found }
    | some homeSetHref => .ok (resolveUrl homeSetHref serverUrl)

/-- getEvents sequential per-calendar loop (Apple).  The cancellation signal
is checked before each calendar; an abort throws, which the outer catch of
getEvents absorbs, so the events gathered before the abort are kept and the
remaining calendars contribute nothing.  A per-calendar fetch failure is
caught inside the loop and skipped. -/
def AppleCaldavProvider.getEventsLoop
    (fetch : String → Except ProviderError (List IcsEvent))
    (ab : Nat → Bool) : List String → List IcsEvent
  | [] => []
  | calHref :: rest =>
    if ab 0 then []
    else
      (match fetch calHref with
       | .ok evs => evs
       | .error _ => [])
      ++ AppleCaldavProvider.getEventsLoop fetch (fun n => ab (n + 1)) rest

/-- getEvents (Apple): connect guard, configured-or-requested calendar hrefs,
then the sequential loop. -/
def AppleCaldavProvider.getEvents (connected : Bool)
    (configCalendarHrefs : List String) (optionCalendarIds : List String)
    (fetch : String → Except ProviderError (List IcsEvent))
    (ab : Nat → Bool) : List IcsEvent :=
  if !connected then []
  else
    let calendarHrefs :=
      if optionCalendarIds.isEmpty then configCalendarHrefs
      else optionCalendarIds
    if calendarHrefs.isEmpty then []
    else AppleCaldavProvider.getEventsLoop fetch ab calendarHrefs

/-- updateEvent (Apple).  A PUT to the resource URL with If-Match when a
version tag is known (`respond h` is the server response when the If-Match
header is h); 204 and 200 succeed carrying the refreshed ETag header; 412
reports a conflict; 401, 403 and 404 fail with dedicated messages; every
other status fails. -/
def AppleCaldavProvider.updateEvent (connected : Bool)
    (resourceUrl : Option String) (etag : Option String) (event : IcsEvent)
    (respond : Option String → CaldavResponse) : WriteResult :=
  if !connected then
    { success := false, event := none
      error := some "Not authenticated", conflict := false }
  else
    match resourceUrl with
    | none =>
      { success := false, event := none
        error := some "Cannot determine event URL for update"
        conflict := false }
    | some _ =>
      let response := respond etag
      if response.status = 204 || response.status = 200 then
        { success := true
          event := some { event with etag := response.etagHeader }
          error := none, conflict := false }
      else if response.status = 412 then
        { success := false, event := none
          error := some
            "Conflict: The event was modified on the server. Please refresh and try again."
          conflict := true }
      else if response.status = 401 then
        { success := false, event := none
          error := some
            "Authentication failed - check your App-Specific Password"
          conflict := false }
      else if response.status = 403 then
        { success := false, event := none
          error := some
            "Permission denied - you may not have write access to this calendar"
          conflict := false }
      else if response.status = 404 then
        { success := false, event := none
          error := some "Event not found - it may have been deleted"
          conflict := false }
      else
        { success := false, event := none
          error := some "Update failed", conflict := false }

/-- deleteEvent (Apple).  DELETE with If-Match when a version tag is known;
204 and 200 succeed; 404 means already deleted and is success; 412 reports a
conflict; 401 and 403 fail with dedicated messages; every other status
fails. -/
def AppleCaldavProvider.deleteEvent (connected : Bool) (eventId : String)
    (etag : Option String)
    (respond : Option String → CaldavResponse) : WriteResult :=
  if !connected then
    { success := false, event := none
      error := some "Not authenticated", conflict := false }
  else
    let response := respond etag
    if response.status = 204 || response.status = 200 then
      { success := true, event := none, error := none, conflict := false }
    else if response.status = 404 then
      { success := true, event := none, error := none, conflict := false }
    else if response.status = 412 then
      { success := false, event := none
        error := some "Conflict: The event was modified on the server"
        conflict := true }
    else if response.status = 401 then
      { success := false, event := none
        error := some
          "Authentication failed - check your App-Specific Password"
        conflict := false }
    else if response.status = 403 then
      { success := false, event := none
        error := some
          "Permission denied - you may not have write access to this calendar"
        conflict := false }
    else
      { success := false, event := none
        error := some "Delete failed", conflict := false }

-- ============================================================================
-- OAuth token manager (src/managers/calendar-auth-manager.ts) and the
-- hasValidTokens guard (src/types/calendar-provider.ts)
-- ============================================================================

/-- OAuth token data.  Times are absolute millisecond timestamps. -/
structure OAuthTokenData where
  accessToken : String
  refreshToken : Option String
  expiresAt : Int
  scope : String
  tokenType : String
  issuedAt : Int
deriving DecidableEq, Repr

/-- Parsed JSON body of a successful token endpoint response. -/
structure TokenRefreshResponse where
  access_token : String
  refresh_token : Option String
  expires_in : Int
  scope : Option String
  token_type : Option String
deriving DecidableEq, Repr

/-- Buffer time before token expiration that triggers a refresh
(5 minutes). -/
def TOKEN_REFRESH_BUFFER_MS : Int := 5 * 60 * 1000

/-- isTokenExpired: `Date.now() > expiresAt - TOKEN_REFRESH_BUFFER_MS`, with
the current instant passed explicitly. -/
def CalendarAuthManager.isTokenExpired (now : Int) (tokenData : OAuthTokenData) :
    Bool :=
  decide (now > tokenData.expiresAt - TOKEN_REFRESH_BUFFER_MS)

/-- canRefreshToken: truthiness of the stored refresh token. -/
def CalendarAuthManager.canRefreshToken (tokenData : OAuthTokenData) : Bool :=
  match tokenData.refreshToken with
  | some r => !r.isEmpty
  | none => false

/-- refreshAccessToken: the HTTP exchange is modelled by the response
(either a failure description or the parsed body).  On success a fully new
token is built: expiresAt is now + expires_in seconds, and the prior refresh
token is retained when the provider did not rotate it. -/
def CalendarAuthManager.refreshAccessToken (now : Int)
    (oldRefreshToken : String) (defaultScope : String)
    (resp : Except String TokenRefreshResponse) :
    Except String OAuthTokenData :=
  match resp with
  | .error e => .error ("Token refresh failed: " ++ e)
  | .ok data =>
    .ok { accessToken := data.access_token
          refreshToken := some (data.refresh_token.getD oldRefreshToken)
          expiresAt := now + data.expires_in * 1000
          scope := data.scope.getD defaultScope
          tokenType := data.token_type.getD "Bearer"
          issuedAt := now }

/-- ensureValidToken: return the token unchanged when it is not expired;
otherwise refresh, failing when no refresh token is held. -/
def CalendarAuthManager.ensureValidToken (now : Int) (tokenData : OAuthTokenData)
    (defaultScope : String) (resp : Except String TokenRefreshResponse) :
    Except String OAuthTokenData :=
  if !(CalendarAuthManager.isTokenExpired now tokenData) then .ok tokenData
  else if !(CalendarAuthManager.canRefreshToken tokenData) then
    .error "Token expired and no refresh token available"
  else
    CalendarAuthManager.refreshAccessToken now
      ((tokenData.refreshToken.getD "")) defaultScope resp

/-- hasValidTokens: type guard of src/types/calendar-provider.ts.  True for
an OAuth source holding a token whose expiresAt lies strictly beyond now
plus a 5 minute buffer. -/
def hasValidTokens (now : Int) (isOAuth : Bool)
    (auth : Option OAuthTokenData) : Bool :=
  if !isOAuth then false
  else
    match auth with
    | none => false
    | some a => decide (a.expiresAt > now + 5 * 60 * 1000)

-- ============================================================================
-- Helper lemmas
-- ============================================================================

/-- Adding one day to local midnight of civil day D lands on civil day
D + 1. -/
theorem localCivilDay_midnight_add_day (D : Int) :
    localCivilDay (dateFromCivilDay D + 86400000) = D + 1 := by
  unfold localCivilDay dateFromCivilDay msPerDay
  have h : D * (24 * 60 * 60 * 1000) + 86400000
      = (D + 1) * (24 * 60 * 60 * 1000) := by ring
  rw [h, Int.mul_fdiv_cancel]
  norm_num

/-- Local midnight of a civil day lies on that civil day. -/
theorem localCivilDay_midnight (D : Int) :
    localCivilDay (dateFromCivilDay D) = D := by
  unfold localCivilDay dateFromCivilDay msPerDay
  rw [Int.mul_fdiv_cancel]
  norm_num

-- ============================================================================
-- C1: all-day end date round trip
-- ============================================================================

/-- C1: for an all-day canonical event with inclusive end date D, the Google
and Outlook write converters add exactly one day to the end date (the wire
end is exclusive), and reading a wire all-day event back subtracts exactly
one day, so a write followed by a read recovers the inclusive end date D
exactly, for both providers. -/
theorem allday_end_roundtrip_google_outlook (D nowMs : Int)
    (gEvent : GoogleEvent) (oEvent : GraphEvent) (cal : String) (w : Bool)
    (hg1 : gEvent.start.date.isSome = true)
    (hg2 : gEvent.endTime
      = GoogleCalendarProvider.toGoogleDateTime (dateFromCivilDay D) true true)
    (ho1 : oEvent.isAllDay = some true)
    (ho2 : oEvent.endTime
      = some (OutlookCalendarProvider.toGraphDateTime (dateFromCivilDay D)
          true true)) :
    (GoogleCalendarProvider.toGoogleDateTime (dateFromCivilDay D) true
        true).date = some (D + 1)
    ∧ (GoogleCalendarProvider.convertGoogleEvent gEvent cal w).dtend
        = some (dateFromCivilDay D)
    ∧ (OutlookCalendarProvider.toGraphDateTime (dateFromCivilDay D) true
        true).dateTime = dateFromCivilDay (D + 1)
    ∧ (OutlookCalendarProvider.convertOutlookEvent nowMs oEvent cal w).dtend
        = some (dateFromCivilDay D) := by
  have hwire :
      GoogleCalendarProvider.toGoogleDateTime (dateFromCivilDay D) true true
        = { date := some (D + 1), dateTime := none } := by
    unfold GoogleCalendarProvider.toGoogleDateTime
    norm_num [localCivilDay_midnight_add_day]
  have hwireO :
      OutlookCalendarProvider.toGraphDateTime (dateFromCivilDay D) true true
        = { dateTime := dateFromCivilDay (D + 1), timeZone := "UTC" } := by
    unfold OutlookCalendarProvider.toGraphDateTime
    norm_num [localCivilDay_midnight_add_day]
  have hexcl : GoogleCalendarProvider.parseAllDayDateExclusive (D + 1)
      = dateFromCivilDay D := by
    unfold GoogleCalendarProvider.parseAllDayDateExclusive dateFromCivilDay
      msPerDay
    ring
  have hparse : OutlookCalendarProvider.parseGraphDateTime
      { dateTime := dateFromCivilDay (D + 1), timeZone := "UTC" } true
      = dateFromCivilDay (D + 1) := by
    unfold OutlookCalendarProvider.parseGraphDateTime
    simp [localCivilDay_midnight]
  have hshift : dateFromCivilDay (D + 1) - msPerDay = dateFromCivilDay D := by
    unfold dateFromCivilDay msPerDay
    ring
  refine ⟨by rw [hwire], ?_, by rw [hwireO], ?_⟩
  · unfold GoogleCalendarProvider.convertGoogleEvent
    simp only [hg1, hg2, hwire, if_true]
    simp [hexcl]
  · unfold OutlookCalendarProvider.convertOutlookEvent
    simp only [ho1, ho2, hwireO, Option.getD_some, if_true]
    simp [hparse, hshift]

/-- Sample Google wire event whose all-day end was produced by writing the
inclusive end date 3. -/
def c1GoogleEvent : GoogleEvent :=
  { id := "g", status := "confirmed", etag := "e", summary := none
    start := { date := some 3, dateTime := none }
    endTime := GoogleCalendarProvider.toGoogleDateTime
      (dateFromCivilDay 3) true true
    transparency := none, iCalUID := none }

/-- Sample Graph wire event whose all-day end was produced by writing the
inclusive end date 3. -/
def c1GraphEvent : GraphEvent :=
  { id := "o", changeKey := none, subject := none, isAllDay := some true
    isCancelled := none, showAs := none, importance := none
    responseStatusResponse := none, startTime := none
    endTime := some (OutlookCalendarProvider.toGraphDateTime
      (dateFromCivilDay 3) true true)
    iCalUId := none }

/-- Witness for C1 at D = 3 with concrete wire events. -/
theorem allday_end_roundtrip_witness :
    (GoogleCalendarProvider.convertGoogleEvent c1GoogleEvent "cal"
        false).dtend = some (dateFromCivilDay 3)
    ∧ (OutlookCalendarProvider.convertOutlookEvent 0 c1GraphEvent "cal"
        false).dtend = some (dateFromCivilDay 3) :=
  ⟨(allday_end_roundtrip_google_outlook 3 0 c1GoogleEvent c1GraphEvent "cal"
      false rfl rfl rfl rfl).2.1,
   (allday_end_roundtrip_google_outlook 3 0 c1GoogleEvent c1GraphEvent "cal"
      false rfl rfl rfl rfl).2.2.2⟩

-- ============================================================================
-- C3: single refresh-and-retry on 401
-- ============================================================================

/-- C3: on a first 401 response, each token-REST provider attempts exactly
one token refresh; when the refresh succeeds, exactly one retry is issued
(two requests total, never more), whose 200 response is returned and whose
non-200 response (a second 401 included) terminates the call with a
ProviderError of type auth; when the refresh fails, no retry is issued and
the call terminates with a ProviderError of type auth. -/
theorem refresh_retry_once_on_401 {α : Type}
    (first retry : HttpResponse α) (refreshOk : Bool)
    (h401 : first.status = 401) :
    (GoogleCalendarProvider.makeAuthenticatedRequest true first refreshOk
        retry).refreshAttempts = 1
    ∧ (GoogleCalendarProvider.makeAuthenticatedRequest true first refreshOk
        retry).requestsMade ≤ 2
    ∧ (refreshOk = true →
        (GoogleCalendarProvider.makeAuthenticatedRequest true first refreshOk
          retry).requestsMade = 2)
    ∧ (refreshOk = true → retry.status = 200 →
        (GoogleCalendarProvider.makeAuthenticatedRequest true first refreshOk
          retry).result = .ok retry.json)
    ∧ (refreshOk = true → retry.status ≠ 200 →
        (GoogleCalendarProvider.makeAuthenticatedRequest true first refreshOk
          retry).result = .error
            { message := "API request failed after token refresh"
              type := .auth })
    ∧ (refreshOk = false →
        (GoogleCalendarProvider.makeAuthenticatedRequest true first refreshOk
          retry).requestsMade = 1
        ∧ (GoogleCalendarProvider.makeAuthenticatedRequest true first
            refreshOk retry).result = .error
              { message := "Authentication failed - token refresh unsuccessful"
                type := .auth })
    ∧ (OutlookCalendarProvider.makeGraphRequest true first refreshOk
        retry).refreshAttempts = 1
    ∧ (OutlookCalendarProvider.makeGraphRequest true first refreshOk
        retry).requestsMade ≤ 2
    ∧ (refreshOk = true →
        (OutlookCalendarProvider.makeGraphRequest true first refreshOk
          retry).requestsMade = 2)
    ∧ (refreshOk = true → retry.status = 200 →
        (OutlookCalendarProvider.makeGraphRequest true first refreshOk
          retry).result = .ok retry.json)
    ∧ (refreshOk = true → retry.status ≠ 200 →
        (OutlookCalendarProvider.makeGraphRequest true first refreshOk
          retry).result = .error
            { message := "API request failed after token refresh"
              type := .auth })
    ∧ (refreshOk = false →
        (OutlookCalendarProvider.makeGraphRequest true first refreshOk
          retry).requestsMade = 1
        ∧ (OutlookCalendarProvider.makeGraphRequest true first refreshOk
            retry).result = .error
              { message := "Authentication failed - token refresh unsuccessful"
                type := .auth }) := by
  unfold GoogleCalendarProvider.makeAuthenticatedRequest
    OutlookCalendarProvider.makeGraphRequest
  cases refreshOk <;>
    by_cases h200 : retry.status = 200 <;>
      simp [h401, h200]

/-- Witness for C3: a 401 followed by a second 401 after a successful
refresh ends in an auth error after exactly two requests and one refresh. -/
theorem refresh_retry_once_on_401_witness :
    (GoogleCalendarProvider.makeAuthenticatedRequest true
        (HttpResponse.mk 401 (0 : Nat)) true
        (HttpResponse.mk 401 (0 : Nat))).result = .error
          { message := "API request failed after token refresh"
            type := .auth } :=
  (refresh_retry_once_on_401 (HttpResponse.mk 401 (0 : Nat))
    (HttpResponse.mk 401 (0 : Nat)) true rfl).2.2.2.2.1 rfl (by decide)

-- ============================================================================
-- C4: updateEvent conflict reporting
-- ============================================================================

/-- Sample Google wire event returned by the server after an update. -/
def c4GoogleServerEvent : GoogleEvent :=
  { id := "g1", status := "confirmed", etag := "v2", summary := none
    start := { date := none, dateTime := some 0 }
    endTime := { date := none, dateTime := some 0 }
    transparency := none, iCalUID := none }

/-- C4 counterexample: the Google provider, on a 412 stale-tag response,
does not return success false with conflict true; it retries the update once
without the If-Match header and, when the forced retry is accepted, reports
plain success. -/
theorem google_update_412_counterexample :
    (GoogleCalendarProvider.updateEvent true (some "g1") "cal" (some "v1")
      (fun h => match h with
        | some _ => { status := 412, json := c4GoogleServerEvent }
        | none => { status := 200, json := c4GoogleServerEvent })).success
        = true
    ∧ (GoogleCalendarProvider.updateEvent true (some "g1") "cal" (some "v1")
      (fun h => match h with
        | some _ => { status := 412, json := c4GoogleServerEvent }
        | none => { status := 200, json := c4GoogleServerEvent })).conflict
        = false := by
  exact ⟨rfl, rfl⟩

/-- C4 amended: a stale version tag (412) yields success false with conflict
true for Outlook and Apple CalDAV, and an accepted update yields success
true with the refreshed version tag; the Google provider instead retries a
412 exactly once without the If-Match header, returns the outcome of that
forced retry, and never sets the conflict flag. -/
theorem updateEvent_conflict_reporting_amended (nowMs : Int)
    (eid cal tag : String) (ev : IcsEvent)
    (respondG : Option String → HttpResponse GoogleEvent)
    (respondO : Option String → HttpResponse GraphEvent)
    (respondA : Option String → CaldavResponse) :
    ((respondO (some ("W/\"" ++ tag ++ "\""))).status = 412 →
      OutlookCalendarProvider.updateEvent nowMs true (some eid) cal
          (some tag) respondO
        = { success := false, event := none
            error := some
              "Conflict: The event was modified on the server. Please refresh and try again."
            conflict := true })
    ∧ ((respondO (some ("W/\"" ++ tag ++ "\""))).status < 400 →
        OutlookCalendarProvider.updateEvent nowMs true (some eid) cal
            (some tag) respondO
          = { success := true
              event := some (OutlookCalendarProvider.convertOutlookEvent
                nowMs (respondO (some ("W/\"" ++ tag ++ "\""))).json cal true)
              error := none, conflict := false })
    ∧ ((respondA (some tag)).status = 412 →
        AppleCaldavProvider.updateEvent true (some eid) (some tag) ev respondA
          = { success := false, event := none
              error := some
                "Conflict: The event was modified on the server. Please refresh and try again."
              conflict := true })
    ∧ ((respondA (some tag)).status = 204 ∨ (respondA (some tag)).status = 200
        → AppleCaldavProvider.updateEvent true (some eid) (some tag) ev
            respondA
          = { success := true
              event := some { ev with etag := (respondA (some tag)).etagHeader }
              error := none, conflict := false })
    ∧ ((respondG (some tag)).status < 400 →
        GoogleCalendarProvider.updateEvent true (some eid) cal (some tag)
            respondG
          = { success := true
              event := some (GoogleCalendarProvider.convertGoogleEvent
                (respondG (some tag)).json cal true)
              error := none, conflict := false })
    ∧ ((respondG (some tag)).status = 412 → (respondG none).status < 400 →
        GoogleCalendarProvider.updateEvent true (some eid) cal (some tag)
            respondG
          = { success := true
              event := some (GoogleCalendarProvider.convertGoogleEvent
                (respondG none).json cal true)
              error := none, conflict := false })
    ∧ ((respondG (some tag)).status = 412 → (respondG none).status ≥ 400 →
        GoogleCalendarProvider.updateEvent true (some eid) cal (some tag)
            respondG
          = { success := false, event := none
              error := some "Failed to update event", conflict := false }) := by
  unfold OutlookCalendarProvider.updateEvent AppleCaldavProvider.updateEvent
    GoogleCalendarProvider.updateEvent
  refine ⟨?_, ?_, ?_, ?_, ?_, ?_, ?_⟩
  · intro h412
    simp [h412]
  · intro hlt
    have h1 : (respondO (some ("W/\"" ++ tag ++ "\""))).status ≠ 412 := by
      omega
    have h2 : ¬ (respondO (some ("W/\"" ++ tag ++ "\""))).status ≥ 400 := by
      omega
    simp [h1, h2]
  · intro h412
    simp [h412]
  · intro hok
    rcases hok with h | h <;> simp [h]
  · intro hlt
    have h1 : (respondG (some tag)).status ≠ 412 := by omega
    have h2 : ¬ (respondG (some tag)).status ≥ 400 := by omega
    simp [h1, h2]
  · intro h412 hlt
    have h2 : ¬ (respondG none).status ≥ 400 := by omega
    simp [h412, h2]
  · intro h412 hge
    simp [h412, hge]

/-- Witness for C4 amended: an Outlook 412 reports a conflict. -/
theorem updateEvent_conflict_reporting_witness :
    OutlookCalendarProvider.updateEvent 0 true (some "e1") "cal" (some "k1")
        (fun _ => { status := 412, json := c1GraphEvent })
      = { success := false, event := none
          error := some
            "Conflict: The event was modified on the server. Please refresh and try again."
          conflict := true } :=
  (updateEvent_conflict_reporting_amended 0 "e1" "cal" "k1"
    (GoogleCalendarProvider.convertGoogleEvent c4GoogleServerEvent "cal" true)
    (fun _ => { status := 200, json := c4GoogleServerEvent })
    (fun _ => { status := 412, json := c1GraphEvent })
    (fun _ => { status := 404, etagHeader := none })).1 rfl

-- ============================================================================
-- C5: deleteEvent on an already-deleted resource
-- ============================================================================

/-- C5 counterexample: the Google provider reports failure, not success,
when a delete receives HTTP 404. -/
theorem google_delete_404_counterexample :
    (GoogleCalendarProvider.deleteEvent true "g1" none
      (fun _ => { status := 404, json := () })).success = false := rfl

/-- C5 amended: deleteEvent on an already-deleted resource returns success
true on HTTP 404 for the Outlook and Apple CalDAV providers; the Google
provider treats HTTP 410 Gone as already-deleted success but reports an HTTP
404 as a failure. -/
theorem deleteEvent_idempotent_amended (eid : String) (etag : Option String) :
    OutlookCalendarProvider.deleteEvent true eid etag
        (fun _ => { status := 404, json := () })
      = { success := true, event := none, error := none, conflict := false }
    ∧ AppleCaldavProvider.deleteEvent true eid etag
        (fun _ => { status := 404, etagHeader := none })
      = { success := true, event := none, error := none, conflict := false }
    ∧ GoogleCalendarProvider.deleteEvent true eid etag
        (fun _ => { status := 410, json := () })
      = { success := true, event := none, error := none, conflict := false }
    ∧ (GoogleCalendarProvider.deleteEvent true eid etag
        (fun _ => { status := 404, json := () })).success = false :=
  ⟨rfl, rfl, rfl, rfl⟩

-- ============================================================================
-- C6: token validity window and refresh
-- ============================================================================

/-- Sample OAuth token expiring at t = 600000 ms. -/
def c6Token : OAuthTokenData :=
  { accessToken := "OLD", refreshToken := some "R", expiresAt := 600000
    scope := "s", tokenType := "Bearer", issuedAt := 0 }

/-- Sample token endpoint response carrying a fresh access token. -/
def c6RefreshResponse : TokenRefreshResponse :=
  { access_token := "NEW", refresh_token := none, expires_in := 3600
    scope := none, token_type := none }

/-- Sample OAuth token expiring at t = 1000000 ms, already inside the
refresh buffer at now = 800000. -/
def c6ExpiredToken : OAuthTokenData :=
  { accessToken := "OLD", refreshToken := some "R", expiresAt := 1000000
    scope := "s", tokenType := "Bearer", issuedAt := 0 }

/-- Sample token endpoint response whose access token lives only 10
seconds. -/
def c6ShortRefreshResponse : TokenRefreshResponse :=
  { access_token := "NEW", refresh_token := none, expires_in := 10
    scope := none, token_type := none }

/-- C6 counterexample, refuting both parts of the claim at concrete inputs.
First, at the boundary instant now = expiresAt - 5min the token is not
considered valid under the strict test of the claim (and of
hasValidTokens), yet ensureValidToken performs no refresh and returns the
identical token - the access token is still the old one.  Second, a token
inside the refresh buffer (now = 800000, expiresAt = 1000000) is refreshed,
but a response with expires_in = 10 seconds produces a token expiring at
810000, EARLIER than the old expiry 1000000 - the refresh does not always
produce a later-expiring token. -/
theorem ensureValidToken_counterexample :
    (¬ ((300000 : Int) < c6Token.expiresAt - 5 * 60 * 1000)
      ∧ CalendarAuthManager.ensureValidToken 300000 c6Token "d"
          (.ok c6RefreshResponse) = .ok c6Token
      ∧ hasValidTokens 300000 true (some c6Token) = false)
    ∧ (CalendarAuthManager.ensureValidToken 800000 c6ExpiredToken "d"
          (.ok c6ShortRefreshResponse)
        = .ok { accessToken := "NEW", refreshToken := some "R"
                expiresAt := 810000, scope := "d", tokenType := "Bearer"
                issuedAt := 800000 }
      ∧ (810000 : Int) < c6ExpiredToken.expiresAt) := by
  refine ⟨⟨by decide, rfl, rfl⟩, rfl, by decide⟩

/-- C6 amended: hasValidTokens considers a token valid exactly when
now < expiresAt - 5min (strict); ensureValidToken returns the identical
token, performing no refresh, exactly when now ≤ expiresAt - 5min; beyond
that it refreshes and produces a token expiring at now + expires_in seconds,
which is a later expiry whenever expires_in is at least the 5 minute
buffer (and, as the counterexample shows, possibly an earlier one for a
shorter-lived response). -/
theorem token_validity_amended (now : Int) (t : OAuthTokenData) (ds : String)
    (data : TokenRefreshResponse)
    (hr : CalendarAuthManager.canRefreshToken t = true) :
    (hasValidTokens now true (some t) = true ↔
      now < t.expiresAt - 5 * 60 * 1000)
    ∧ (now ≤ t.expiresAt - 5 * 60 * 1000 →
        CalendarAuthManager.ensureValidToken now t ds (.ok data) = .ok t)
    ∧ (t.expiresAt - 5 * 60 * 1000 < now →
        ∃ t2, CalendarAuthManager.ensureValidToken now t ds (.ok data)
            = .ok t2
          ∧ t2.expiresAt = now + data.expires_in * 1000
          ∧ t2.accessToken = data.access_token
          ∧ (5 * 60 * 1000 ≤ data.expires_in * 1000 →
              t.expiresAt < t2.expiresAt)) := by
  refine ⟨?_, ?_, ?_⟩
  · unfold hasValidTokens
    simp only [Bool.not_true, Bool.false_eq_true, if_false, decide_eq_true_eq]
    omega
  · intro hle
    unfold CalendarAuthManager.ensureValidToken
      CalendarAuthManager.isTokenExpired TOKEN_REFRESH_BUFFER_MS
    have hne : ¬ (now > t.expiresAt - 5 * 60 * 1000) := by omega
    simp only [hne]
    simp
  · intro hgt
    unfold CalendarAuthManager.ensureValidToken
      CalendarAuthManager.isTokenExpired TOKEN_REFRESH_BUFFER_MS
    have hyes : (now > t.expiresAt - 5 * 60 * 1000) := by omega
    have h1 : ¬ ((!(decide (now > t.expiresAt - 5 * 60 * 1000))) = true) := by
      simp
      omega
    rw [if_neg h1]
    have h2 : ¬ ((!CalendarAuthManager.canRefreshToken t) = true) := by
      simp [hr]
    rw [if_neg h2]
    unfold CalendarAuthManager.refreshAccessToken
    refine ⟨_, rfl, rfl, rfl, ?_⟩
    intro hb
    show t.expiresAt < now + data.expires_in * 1000
    omega

/-- Witness for C6 amended: a token one hour from expiry is kept unchanged,
and an expired token is replaced by one expiring an hour after now. -/
theorem token_validity_witness :
    CalendarAuthManager.ensureValidToken 0
        { accessToken := "A", refreshToken := some "R", expiresAt := 3600000
          scope := "s", tokenType := "Bearer", issuedAt := 0 } "d"
        (.ok c6RefreshResponse)
      = .ok { accessToken := "A", refreshToken := some "R"
              expiresAt := 3600000, scope := "s", tokenType := "Bearer"
              issuedAt := 0 } :=
  (token_validity_amended 0
    { accessToken := "A", refreshToken := some "R", expiresAt := 3600000
      scope := "s", tokenType := "Bearer", issuedAt := 0 } "d"
    c6RefreshResponse (by decide)).2.1 (by decide)

-- ============================================================================
-- C9: two-step CalDAV discovery
-- ============================================================================

/-- C9: discovery asks the configured server URL for the
current-user-principal href, then asks the principal URL (the href resolved
against the server URL) for the calendar-home-set href, resolving it against
the server URL; when either href cannot be extracted the call fails with a
terminal not_found ProviderError. -/
theorem caldav_discovery_two_step (serverUrl p h : String)
    (propfindHref : String → String → Option String) :
    (propfindHref serverUrl "current-user-principal" = none →
      AppleCaldavProvider.discoverCalendarHomeSet serverUrl propfindHref
        = .error { message := "Could not discover user principal"
                   type := .not_found })
    ∧ (propfindHref serverUrl "current-user-principal" = some p →
       propfindHref (resolveUrl p serverUrl) "calendar-home-set" = none →
      AppleCaldavProvider.discoverCalendarHomeSet serverUrl propfindHref
        = .error { message := "Could not discover calendar home set"
                   type := .not_found })
    ∧ (propfindHref serverUrl "current-user-principal" = some p →
       propfindHref (resolveUrl p serverUrl) "calendar-home-set" = some h →
      AppleCaldavProvider.discoverCalendarHomeSet serverUrl propfindHref
        = .ok (resolveUrl h serverUrl)) := by
  unfold AppleCaldavProvider.discoverCalendarHomeSet
  refine ⟨?_, ?_, ?_⟩
  · intro h1
    rw [h1]
  · intro h1 h2
    rw [h1]
    simp only [h2]
  · intro h1 h2
    rw [h1]
    simp only [h2]

/-- Witness for C9: a server answering both PROPFIND steps yields the
resolved calendar home set. -/
theorem caldav_discovery_two_step_witness :
    AppleCaldavProvider.discoverCalendarHomeSet "https://caldav.icloud.com/"
        (fun _ prop =>
          if prop = "current-user-principal" then some "/principal/1/"
          else some "/home/1/calendars/")
      = .ok (resolveUrl "/home/1/calendars/" "https://caldav.icloud.com/") :=
  (caldav_discovery_two_step "https://caldav.icloud.com/" "/principal/1/"
    "/home/1/calendars/"
    (fun _ prop =>
      if prop = "current-user-principal" then some "/principal/1/"
      else some "/home/1/calendars/")).2.2 (by decide) (by decide)

-- ============================================================================
-- C2: per-calendar failure isolation in getEvents
-- ============================================================================

/-- Flattening the caught per-calendar results equals flattening the
successful results only: the catch turns every failure into an empty
contribution. -/
theorem flatten_catch_eq_flatten_toOption {β : Type}
    (f : β → Except ProviderError (List IcsEvent)) (ids : List β) :
    (ids.map (fun cid => match f cid with
      | .ok evs => evs
      | .error _ => [])).flatten
    = (ids.filterMap (fun cid => (f cid).toOption)).flatten := by
  induction ids with
  | nil => rfl
  | cons c rest ih =>
    simp only [List.map_cons, List.filterMap_cons, List.flatten_cons]
    cases h : f c with
    | ok evs => simp [Except.toOption, ih]
    | error e => simp [Except.toOption, ih]

/-- A nonempty list is not isEmpty. -/
theorem isEmpty_false_of_mem {β : Type} {x : β} {l : List β} (h : x ∈ l) :
    l.isEmpty = false := by
  cases l with
  | nil => cases h
  | cons a rest => rfl

/-- Events of a successfully fetched calendar are all in the Google
getEvents result. -/
theorem google_getEvents_mem (ids : List String)
    (pagesFor : String → List (Except ProviderError (List GoogleEvent)))
    (abFor : String → Nat → Bool) (cid : String) (evs : List IcsEvent)
    (e : IcsEvent) (hmem : cid ∈ ids)
    (hok : GoogleCalendarProvider.fetchEventsFromCalendar cid (abFor cid)
      (pagesFor cid) = .ok evs)
    (he : e ∈ evs) :
    e ∈ GoogleCalendarProvider.getEvents true [] ids pagesFor abFor := by
  unfold GoogleCalendarProvider.getEvents
  simp only [Bool.not_true, Bool.false_eq_true, if_false,
    isEmpty_false_of_mem hmem]
  refine List.mem_flatten.mpr ⟨evs, ?_, he⟩
  refine List.mem_map.mpr ⟨cid, hmem, ?_⟩
  rw [hok]

/-- Events of a successfully fetched calendar are all in the Outlook
getEvents result. -/
theorem outlook_getEvents_mem (nowMs : Int) (ids : List String)
    (pagesFor : String → List (Except ProviderError (List GraphEvent)))
    (abFor : String → Nat → Bool) (cid : String) (evs : List IcsEvent)
    (e : IcsEvent) (hmem : cid ∈ ids)
    (hok : OutlookCalendarProvider.fetchEventsFromCalendar nowMs cid
      (abFor cid) (pagesFor cid) = .ok evs)
    (he : e ∈ evs) :
    e ∈ OutlookCalendarProvider.getEvents nowMs true [] ids pagesFor abFor := by
  unfold OutlookCalendarProvider.getEvents
  simp only [Bool.not_true, Bool.false_eq_true, if_false,
    isEmpty_false_of_mem hmem]
  refine List.mem_flatten.mpr ⟨evs, ?_, he⟩
  refine List.mem_map.mpr ⟨cid, hmem, ?_⟩
  rw [hok]

/-- The Apple sequential loop with an unaborted signal flattens the
successful per-calendar results. -/
theorem apple_loop_no_abort
    (fetch : String → Except ProviderError (List IcsEvent)) :
    ∀ (ids : List String),
      AppleCaldavProvider.getEventsLoop fetch (fun _ => false) ids
        = (ids.filterMap (fun cid => (fetch cid).toOption)).flatten := by
  intro ids
  induction ids with
  | nil => rfl
  | cons c rest ih =>
    unfold AppleCaldavProvider.getEventsLoop
    simp only [Bool.false_eq_true, if_false, List.filterMap_cons]
    cases h : fetch c with
    | ok evs => simp [Except.toOption, ih]
    | error e => simp [Except.toOption, ih]

/-- C2: when the fetch for some calendars fails, getEvents still returns
exactly the concatenation of the events of the calendars that succeeded -
each failing calendar contributes zero events and no per-calendar failure
aborts the whole call - for the Google provider (parallel fan-out with
per-calendar catch) and the Apple CalDAV provider (sequential loop with
per-calendar catch). -/
theorem getEvents_isolates_calendar_failures (ids : List String)
    (pagesFor : String → List (Except ProviderError (List GoogleEvent)))
    (abFor : String → Nat → Bool)
    (fetchA : String → Except ProviderError (List IcsEvent))
    (hfailG : ∃ cid ∈ ids,
      (GoogleCalendarProvider.fetchEventsFromCalendar cid (abFor cid)
        (pagesFor cid)).isOk = false)
    (hfailA : ∃ cid ∈ ids, (fetchA cid).isOk = false) :
    GoogleCalendarProvider.getEvents true [] ids pagesFor abFor
      = (ids.filterMap (fun cid =>
          (GoogleCalendarProvider.fetchEventsFromCalendar cid (abFor cid)
            (pagesFor cid)).toOption)).flatten
    ∧ (∀ cid ∈ ids, ∀ evs,
        GoogleCalendarProvider.fetchEventsFromCalendar cid (abFor cid)
          (pagesFor cid) = .ok evs →
        ∀ e ∈ evs,
          e ∈ GoogleCalendarProvider.getEvents true [] ids pagesFor abFor)
    ∧ AppleCaldavProvider.getEvents true [] ids fetchA (fun _ => false)
      = (ids.filterMap (fun cid => (fetchA cid).toOption)).flatten := by
  obtain ⟨cg, hcg, _⟩ := hfailG
  obtain ⟨ca, hca, _⟩ := hfailA
  refine ⟨?_, ?_, ?_⟩
  · unfold GoogleCalendarProvider.getEvents
    simp only [Bool.not_true, Bool.false_eq_true, if_false,
      isEmpty_false_of_mem hcg]
    exact flatten_catch_eq_flatten_toOption _ ids
  · intro cid hmem evs hok e he
    exact google_getEvents_mem ids pagesFor abFor cid evs e hmem hok he
  · unfold AppleCaldavProvider.getEvents
    simp only [Bool.not_true, Bool.false_eq_true, if_false,
      isEmpty_false_of_mem hca]
    exact apple_loop_no_abort fetchA ids

-- ============================================================================
-- C7: cancellation granularity
-- ============================================================================

/-- A Google pagination run whose first aborted signal check is check k,
with every earlier page succeeding, stops with the cancellation error and
never touches the remaining pages. -/
theorem google_fetch_abort (cid : String) :
    ∀ (k : Nat) (ab : Nat → Bool)
      (pages : List (Except ProviderError (List GoogleEvent))),
      k < pages.length → (∀ j, j < k → ab j = false) →
      ((pages.take k).all (fun p => p.isOk)) = true → ab k = true →
      GoogleCalendarProvider.fetchPagesGo cid ab pages
        = .error { message := "Request cancelled", type := .unknown } := by
  intro k
  induction k with
  | zero =>
    intro ab pages hk hprev hok hab
    cases pages with
    | nil => simp at hk
    | cons p rest =>
      unfold GoogleCalendarProvider.fetchPagesGo
      simp [hab]
  | succ k ih =>
    intro ab pages hk hprev hok hab
    cases pages with
    | nil => simp at hk
    | cons p rest =>
      have h0 : ab 0 = false := hprev 0 (Nat.succ_pos k)
      simp only [List.take_succ_cons, List.all_cons, Bool.and_eq_true] at hok
      obtain ⟨items, rfl⟩ : ∃ items, p = .ok items := by
        cases p with
        | ok items => exact ⟨items, rfl⟩
        | error e => simp [Except.toBool] at hok
      have hrec := ih (fun n => ab (n + 1)) rest
        (by simp at hk; omega)
        (fun j hj => hprev (j + 1) (Nat.succ_lt_succ hj))
        hok.2 hab
      unfold GoogleCalendarProvider.fetchPagesGo
      simp [h0, hrec]

/-- An Outlook pagination run whose first aborted signal check is check k,
with every earlier page succeeding, stops with the cancellation error. -/
theorem outlook_fetch_abort (nowMs : Int) (cid : String) :
    ∀ (k : Nat) (ab : Nat → Bool)
      (pages : List (Except ProviderError (List GraphEvent))),
      k < pages.length → (∀ j, j < k → ab j = false) →
      ((pages.take k).all (fun p => p.isOk)) = true → ab k = true →
      OutlookCalendarProvider.fetchPagesGo nowMs cid ab pages
        = .error { message := "Request cancelled", type := .unknown } := by
  intro k
  induction k with
  | zero =>
    intro ab pages hk hprev hok hab
    cases pages with
    | nil => simp at hk
    | cons p rest =>
      unfold OutlookCalendarProvider.fetchPagesGo
      simp [hab]
  | succ k ih =>
    intro ab pages hk hprev hok hab
    cases pages with
    | nil => simp at hk
    | cons p rest =>
      have h0 : ab 0 = false := hprev 0 (Nat.succ_pos k)
      simp only [List.take_succ_cons, List.all_cons, Bool.and_eq_true] at hok
      obtain ⟨items, rfl⟩ : ∃ items, p = .ok items := by
        cases p with
        | ok items => exact ⟨items, rfl⟩
        | error e => simp [Except.toBool] at hok
      have hrec := ih (fun n => ab (n + 1)) rest
        (by simp at hk; omega)
        (fun j hj => hprev (j + 1) (Nat.succ_lt_succ hj))
        hok.2 hab
      unfold OutlookCalendarProvider.fetchPagesGo
      simp [h0, hrec]

/-- C7: the cancellation signal is checked at the top of every page
iteration of a per-calendar fetch (so before the first page of each
calendar and between pages); the first aborted check makes the per-calendar
fetch abandon its remaining pages and raise the cancellation ProviderError,
for both the Google and the Outlook provider; and events of sibling
calendars whose fetch completed are all still in the getEvents result. -/
theorem cancellation_per_page_and_siblings (nowMs : Int) (cid : String)
    (k : Nat) (ab : Nat → Bool)
    (pagesG : List (Except ProviderError (List GoogleEvent)))
    (pagesO : List (Except ProviderError (List GraphEvent)))
    (ids : List String)
    (pagesFor : String → List (Except ProviderError (List GoogleEvent)))
    (abFor : String → Nat → Bool)
    (hkG : k < pagesG.length) (hkO : k < pagesO.length)
    (hprev : ∀ j, j < k → ab j = false)
    (hokG : ((pagesG.take k).all (fun p => p.isOk)) = true)
    (hokO : ((pagesO.take k).all (fun p => p.isOk)) = true)
    (hab : ab k = true) :
    GoogleCalendarProvider.fetchEventsFromCalendar cid ab pagesG
      = .error { message := "Request cancelled", type := .unknown }
    ∧ OutlookCalendarProvider.fetchEventsFromCalendar nowMs cid ab pagesO
      = .error { message := "Request cancelled", type := .unknown }
    ∧ (∀ c ∈ ids, ∀ evs,
        GoogleCalendarProvider.fetchEventsFromCalendar c (abFor c)
          (pagesFor c) = .ok evs →
        ∀ e ∈ evs,
          e ∈ GoogleCalendarProvider.getEvents true [] ids pagesFor abFor) := by
  refine ⟨?_, ?_, ?_⟩
  · exact google_fetch_abort cid k ab pagesG hkG hprev hokG hab
  · exact outlook_fetch_abort nowMs cid k ab pagesO hkO hprev hokO hab
  · intro c hmem evs hok e he
    exact google_getEvents_mem ids pagesFor abFor c evs e hmem hok he

/-- Witness for C7: a signal observed aborted at the second page check stops
the Google fetch with the cancellation error. -/
theorem cancellation_per_page_witness :
    GoogleCalendarProvider.fetchEventsFromCalendar "cal"
        (fun n => n == 1) [.ok [], .ok []]
      = .error { message := "Request cancelled", type := .unknown } :=
  (cancellation_per_page_and_siblings 0 "cal" 1 (fun n => n == 1)
    [.ok [], .ok []] [.ok [], .ok []] [] (fun _ => []) (fun _ _ => false)
    (by decide) (by decide) (by decide) (by decide) (by decide)
    (by decide)).1

/-- Sample Google wire event on the calendar that succeeds. -/
def c2GoogleWireEvent : GoogleEvent :=
  { id := "ok1", status := "confirmed", etag := "e1", summary := none
    start := { date := none, dateTime := some 0 }
    endTime := { date := none, dateTime := some 1 }
    transparency := none, iCalUID := none }

/-- Sample per-calendar page outcomes: calendar a succeeds with one event,
calendar b fails with a network error. -/
def c2PagesFor (cid : String) :
    List (Except ProviderError (List GoogleEvent)) :=
  if cid = "a" then [.ok [c2GoogleWireEvent]]
  else [.error { message := "network error", type := .network }]

/-- Sample per-calendar ICS fetch outcomes for the CalDAV provider. -/
def c2FetchA (cid : String) : Except ProviderError (List IcsEvent) :=
  if cid = "a" then
    .ok [GoogleCalendarProvider.convertGoogleEvent c2GoogleWireEvent "a"
      false]
  else .error { message := "network error", type := .network }

/-- Witness for C2: over calendars a and b where b fails, getEvents returns
exactly the events of the succeeding calendars. -/
theorem getEvents_isolates_witness :
    GoogleCalendarProvider.getEvents true [] ["a", "b"] c2PagesFor
        (fun _ _ => false)
      = ((["a", "b"]).filterMap (fun cid =>
          (GoogleCalendarProvider.fetchEventsFromCalendar cid
            ((fun _ _ => false) cid) (c2PagesFor cid)).toOption)).flatten :=
  (getEvents_isolates_calendar_failures ["a", "b"] c2PagesFor
    (fun _ _ => false) c2FetchA (by decide) (by decide)).1

-- ============================================================================
-- C10: cancelled remote events are filtered out
-- ============================================================================

/-- An unrecognized or non-cancelled Google status never maps to
CANCELLED. -/
theorem mapGoogleStatus_ne_cancelled (s : String) (h : s ≠ "cancelled") :
    GoogleCalendarProvider.mapGoogleStatus s ≠ some "CANCELLED" := by
  unfold GoogleCalendarProvider.mapGoogleStatus
  by_cases h1 : s = "confirmed" <;> by_cases h2 : s = "tentative" <;>
    simp [h1, h2, h]

/-- A Graph event whose isCancelled flag is falsy never maps to
CANCELLED. -/
theorem mapOutlookStatus_ne_cancelled (o : GraphEvent)
    (h : o.isCancelled.getD false = false) :
    OutlookCalendarProvider.mapOutlookStatus o ≠ some "CANCELLED" := by
  unfold OutlookCalendarProvider.mapOutlookStatus
  rw [h]
  by_cases h2 : o.responseStatusResponse = some "tentativelyAccepted" <;>
    simp [h2]

/-- Every event produced by a successful Google pagination run has a status
other than CANCELLED: cancelled remote events are filtered out of every
page. -/
theorem google_fetch_no_cancelled (cid : String) :
    ∀ (pages : List (Except ProviderError (List GoogleEvent)))
      (ab : Nat → Bool) (evs : List IcsEvent),
      GoogleCalendarProvider.fetchPagesGo cid ab pages = .ok evs →
      ∀ e ∈ evs, e.status ≠ some "CANCELLED" := by
  intro pages
  induction pages with
  | nil =>
    intro ab evs h e he
    unfold GoogleCalendarProvider.fetchPagesGo at h
    simp only [Except.ok.injEq] at h
    subst h
    cases he
  | cons p rest ih =>
    intro ab evs h e he
    unfold GoogleCalendarProvider.fetchPagesGo at h
    by_cases hab : ab 0 = true
    · rw [if_pos hab] at h
      cases h
    · rw [if_neg hab] at h
      cases p with
      | error err => cases h
      | ok items =>
        cases hrec : GoogleCalendarProvider.fetchPagesGo cid
            (fun n => ab (n + 1)) rest with
        | error err => rw [hrec] at h; cases h
        | ok restEvents =>
          rw [hrec] at h
          simp only [Except.ok.injEq] at h
          subst h
          rcases List.mem_append.mp he with hmap | hrest
          · obtain ⟨g, hg, rfl⟩ := List.mem_map.mp hmap
            have hgf := (List.mem_filter.mp hg).2
            have hne : g.status ≠ "cancelled" := by simpa using hgf
            exact mapGoogleStatus_ne_cancelled g.status hne
          · exact ih (fun n => ab (n + 1)) restEvents hrec e hrest

/-- Every event produced by a successful Outlook pagination run has a status
other than CANCELLED. -/
theorem outlook_fetch_no_cancelled (nowMs : Int) (cid : String) :
    ∀ (pages : List (Except ProviderError (List GraphEvent)))
      (ab : Nat → Bool) (evs : List IcsEvent),
      OutlookCalendarProvider.fetchPagesGo nowMs cid ab pages = .ok evs →
      ∀ e ∈ evs, e.status ≠ some "CANCELLED" := by
  intro pages
  induction pages with
  | nil =>
    intro ab evs h e he
    unfold OutlookCalendarProvider.fetchPagesGo at h
    simp only [Except.ok.injEq] at h
    subst h
    cases he
  | cons p rest ih =>
    intro ab evs h e he
    unfold OutlookCalendarProvider.fetchPagesGo at h
    by_cases hab : ab 0 = true
    · rw [if_pos hab] at h
      cases h
    · rw [if_neg hab] at h
      cases p with
      | error err => cases h
      | ok items =>
        cases hrec : OutlookCalendarProvider.fetchPagesGo nowMs cid
            (fun n => ab (n + 1)) rest with
        | error err => rw [hrec] at h; cases h
        | ok restEvents =>
          rw [hrec] at h
          simp only [Except.ok.injEq] at h
          subst h
          rcases List.mem_append.mp he with hmap | hrest
          · obtain ⟨o, ho, rfl⟩ := List.mem_map.mp hmap
            have hof := (List.mem_filter.mp ho).2
            have hne : o.isCancelled.getD false = false := by
              simpa using hof
            exact mapOutlookStatus_ne_cancelled o hne
          · exact ih (fun n => ab (n + 1)) restEvents hrec e hrest

/-- C10: the getEvents result of the Google and Outlook providers never
contains an event converted from a cancelled remote event - every returned
event has a status other than CANCELLED, because each page is filtered
before conversion. -/
theorem no_cancelled_events_returned (nowMs : Int) (ids : List String)
    (pagesG : String → List (Except ProviderError (List GoogleEvent)))
    (pagesO : String → List (Except ProviderError (List GraphEvent)))
    (abG abO : String → Nat → Bool) :
    (∀ e ∈ GoogleCalendarProvider.getEvents true [] ids pagesG abG,
      e.status ≠ some "CANCELLED")
    ∧ (∀ e ∈ OutlookCalendarProvider.getEvents nowMs true [] ids pagesO abO,
      e.status ≠ some "CANCELLED") := by
  constructor
  · intro e he
    unfold GoogleCalendarProvider.getEvents at he
    by_cases hemp : ids.isEmpty = true
    · simp [hemp] at he
    · simp only [Bool.not_true, Bool.false_eq_true, if_false,
        Bool.not_eq_true] at he
      rw [if_neg (by simp [hemp])] at he
      obtain ⟨l, hl, hel⟩ := List.mem_flatten.mp he
      obtain ⟨c, _, rfl⟩ := List.mem_map.mp hl
      cases hf : GoogleCalendarProvider.fetchEventsFromCalendar c (abG c)
          (pagesG c) with
      | error err => rw [hf] at hel; cases hel
      | ok evs =>
        rw [hf] at hel
        exact google_fetch_no_cancelled c (pagesG c) (abG c) evs hf e hel
  · intro e he
    unfold OutlookCalendarProvider.getEvents at he
    by_cases hemp : ids.isEmpty = true
    · simp [hemp] at he
    · simp only [Bool.not_true, Bool.false_eq_true, if_false,
        Bool.not_eq_true] at he
      rw [if_neg (by simp [hemp])] at he
      obtain ⟨l, hl, hel⟩ := List.mem_flatten.mp he
      obtain ⟨c, _, rfl⟩ := List.mem_map.mp hl
      cases hf : OutlookCalendarProvider.fetchEventsFromCalendar nowMs c
          (abO c) (pagesO c) with
      | error err => rw [hf] at hel; cases hel
      | ok evs =>
        rw [hf] at hel
        exact outlook_fetch_no_cancelled nowMs c (pagesO c) (abO c) evs hf e
          hel

/-- Witness for C10: a concrete returned event has a non-CANCELLED
status. -/
theorem no_cancelled_events_witness :
    (GoogleCalendarProvider.convertGoogleEvent c2GoogleWireEvent "a"
        false).status ≠ some "CANCELLED" :=
  (no_cancelled_events_returned 0 ["a"] c2PagesFor (fun _ => [])
    (fun _ _ => false) (fun _ _ => false)).1
    (GoogleCalendarProvider.convertGoogleEvent c2GoogleWireEvent "a" false)
    (by decide)

-- ============================================================================
-- C8: lookup-table translation is total with safe defaults
-- ============================================================================

/-- C8: each status/transparency/importance/priority translation is a total
function over its wire domain; a value not recognized by the table falls to
the fixed default arm instead of failing.  In the canonical-to-remote
direction the defaults are the concrete safe values confirmed, opaque or
busy, and normal; in the remote-to-canonical direction the default is the
absent value (undefined), the field being simply omitted.  Every
canonical-to-remote output lies in the fixed table range. -/
theorem lookup_tables_total_defaults (s t : String) (sa imp : Option String)
    (p : Int)
    (hs : s ∉ (["confirmed", "tentative", "cancelled"] : List String))
    (hsu : jsToUpperCase s ∉ (["CONFIRMED", "TENTATIVE", "CANCELLED"] :
      List String))
    (hsa : sa ∉ ([some "free", some "tentative", some "busy", some "oof",
      some "workingElsewhere"] : List (Option String)))
    (himp : imp ∉ ([some "high", some "normal", some "low"] :
      List (Option String)))
    (hp : p < 1 ∨ 9 < p)
    (ht : t ≠ "TRANSPARENT") :
    GoogleCalendarProvider.mapGoogleStatus s = none
    ∧ GoogleCalendarProvider.mapIcsStatusToGoogle s = "confirmed"
    ∧ (∀ s2 : String, GoogleCalendarProvider.mapIcsStatusToGoogle s2
        ∈ (["confirmed", "tentative", "cancelled"] : List String))
    ∧ OutlookCalendarProvider.mapShowAsToTransparency sa = none
    ∧ OutlookCalendarProvider.mapImportanceToPriority imp = none
    ∧ OutlookCalendarProvider.mapPriorityToImportance p = "normal"
    ∧ (∀ q : Int, OutlookCalendarProvider.mapPriorityToImportance q
        ∈ (["high", "normal", "low"] : List String))
    ∧ GoogleCalendarProvider.mapIcsTranspToGoogle t = "opaque"
    ∧ OutlookCalendarProvider.mapIcsTranspToShowAs t = "busy" := by
  have hs1 : s ≠ "confirmed" := fun hx => hs (by simp [hx])
  have hs2 : s ≠ "tentative" := fun hx => hs (by simp [hx])
  have hs3 : s ≠ "cancelled" := fun hx => hs (by simp [hx])
  have hu1 : jsToUpperCase s ≠ "CONFIRMED" := fun hx => hsu (by simp [hx])
  have hu2 : jsToUpperCase s ≠ "TENTATIVE" := fun hx => hsu (by simp [hx])
  have hu3 : jsToUpperCase s ≠ "CANCELLED" := fun hx => hsu (by simp [hx])
  have ha1 : sa ≠ some "free" := fun hx => hsa (by simp [hx])
  have ha2 : sa ≠ some "tentative" := fun hx => hsa (by simp [hx])
  have ha3 : sa ≠ some "busy" := fun hx => hsa (by simp [hx])
  have ha4 : sa ≠ some "oof" := fun hx => hsa (by simp [hx])
  have ha5 : sa ≠ some "workingElsewhere" := fun hx => hsa (by simp [hx])
  have hi1 : imp ≠ some "high" := fun hx => himp (by simp [hx])
  have hi2 : imp ≠ some "normal" := fun hx => himp (by simp [hx])
  have hi3 : imp ≠ some "low" := fun hx => himp (by simp [hx])
  refine ⟨?_, ?_, ?_, ?_, ?_, ?_, ?_, ?_, ?_⟩
  · unfold GoogleCalendarProvider.mapGoogleStatus
    simp [hs1, hs2, hs3]
  · unfold GoogleCalendarProvider.mapIcsStatusToGoogle
    simp [hu1, hu2, hu3]
  · intro s2
    unfold GoogleCalendarProvider.mapIcsStatusToGoogle
    by_cases k1 : jsToUpperCase s2 = "CONFIRMED" <;>
      by_cases k2 : jsToUpperCase s2 = "TENTATIVE" <;>
        by_cases k3 : jsToUpperCase s2 = "CANCELLED" <;>
          simp [k1, k2, k3]
  · unfold OutlookCalendarProvider.mapShowAsToTransparency
    simp [ha1, ha2, ha3, ha4, ha5]
  · unfold OutlookCalendarProvider.mapImportanceToPriority
    simp [hi1, hi2, hi3]
  · unfold OutlookCalendarProvider.mapPriorityToImportance
    have c1 : ¬ ((decide (1 ≤ p) && decide (p ≤ 4)) = true) := by
      simp only [Bool.and_eq_true, decide_eq_true_eq]
      omega
    have c2 : ¬ (p = 5) := by omega
    have c3 : ¬ ((decide (6 ≤ p) && decide (p ≤ 9)) = true) := by
      simp only [Bool.and_eq_true, decide_eq_true_eq]
      omega
    rw [if_neg c1, if_neg c2, if_neg c3]
  · intro q
    unfold OutlookCalendarProvider.mapPriorityToImportance
    by_cases k1 : ((decide (1 ≤ q) && decide (q ≤ 4)) = true) <;>
      by_cases k2 : (q = 5) <;>
        by_cases k3 : ((decide (6 ≤ q) && decide (q ≤ 9)) = true) <;>
          simp [k1, k2, k3]
  · unfold GoogleCalendarProvider.mapIcsTranspToGoogle
    rw [if_neg ht]
  · unfold OutlookCalendarProvider.mapIcsTranspToShowAs
    rw [if_neg ht]

/-- Witness for C8 at concrete unrecognized inputs. -/
theorem lookup_tables_total_defaults_witness :
    GoogleCalendarProvider.mapGoogleStatus "zzz" = none
    ∧ GoogleCalendarProvider.mapIcsStatusToGoogle "zzz" = "confirmed"
    ∧ OutlookCalendarProvider.mapShowAsToTransparency (some "unknown") = none
    ∧ OutlookCalendarProvider.mapImportanceToPriority none = none
    ∧ OutlookCalendarProvider.mapPriorityToImportance 42 = "normal"
    ∧ GoogleCalendarProvider.mapIcsTranspToGoogle "weird" = "opaque" :=
  have h := lookup_tables_total_defaults "zzz" "weird" (some "unknown") none
    42 (by decide) (by decide) (by decide) (by decide) (by omega)
    (by decide)
  ⟨h.1, h.2.1, h.2.2.2.1, h.2.2.2.2.1, h.2.2.2.2.2.1, h.2.2.2.2.2.2.2.1⟩
